import Mathlib

/-!
Verification of the role-gated authentication and authorization core of the
NewtonBoticsServer backend. The definitions below are a shallow embedding of
the source:
  - `src/routes/auth.js` (register, login, refresh, logout, forgot-password,
    change-password handlers),
  - `src/middleware/auth.js` (verifyToken, requireOwnership guards),
  - `src/models/User.js` (pre-save hooks, getDefaultPermissions, token
    generation),
  - `src/models/RoleApproval.js` (pre-approval records).

Library collaborators are idealized as is standard for a shallow embedding:
  - bcrypt is a deterministic collision-free one-way function,
  - jsonwebtoken signatures are unforgeable (a token either is one produced by
    this server with a definite payload, or it is invalid),
  - Redis is a key-value map; the string key formats used by the source
    (refresh_token:<id>, blacklist:<token>, password_reset:<id>) are disjoint
    and injective per namespace, so keys are modelled as an inductive type,
  - validator.js field checks (isEmail, normalizeEmail) are modelled as
    simple executable predicates with the structure the routes rely on.
Time is a natural number of seconds passed explicitly to every operation.
-/

namespace NB

/-- The fixed role enumeration from the User schema. -/
inductive Role
  | student
  | team_member
  | mentor
  | researcher
  | community
  | admin
deriving DecidableEq

def Role.toStr : Role → String
  | .student => "student"
  | .team_member => "team_member"
  | .mentor => "mentor"
  | .researcher => "researcher"
  | .community => "community"
  | .admin => "admin"

def Role.ofStr (s : String) : Option Role :=
  if s = "student" then some .student
  else if s = "team_member" then some .team_member
  else if s = "mentor" then some .mentor
  else if s = "researcher" then some .researcher
  else if s = "community" then some .community
  else if s = "admin" then some .admin
  else none

abbrev Permission := String

/-- The fixed role-to-permission map from User.js getDefaultPermissions. -/
def getDefaultPermissions : Role → List Permission
  | .student => ["read:projects", "read:workshops", "read:events", "read:inventory", "read:news", "read:media"]
  | .team_member => ["read:projects", "write:projects", "read:workshops", "read:events", "read:inventory", "read:news", "read:media"]
  | .mentor => ["read:projects", "write:projects", "delete:projects", "read:workshops", "write:workshops", "read:events", "write:events", "read:inventory", "write:inventory", "read:requests", "approve:requests", "read:news", "write:news", "read:media", "write:media"]
  | .researcher => ["read:projects", "write:projects", "delete:projects", "read:workshops", "write:workshops", "delete:workshops", "read:events", "write:events", "delete:events", "read:inventory", "write:inventory", "delete:inventory", "read:requests", "write:requests", "approve:requests", "read:news", "write:news", "delete:news", "read:media", "write:media", "delete:media"]
  | .community => ["read:projects", "read:workshops", "read:events", "read:news", "read:media"]
  | .admin => ["read:projects", "write:projects", "delete:projects", "manage:projects", "read:workshops", "write:workshops", "delete:workshops", "read:events", "write:events", "delete:events", "read:inventory", "write:inventory", "delete:inventory", "manage:inventory", "read:requests", "write:requests", "approve:requests", "read:news", "write:news", "delete:news", "read:media", "write:media", "delete:media", "read:users", "write:users", "delete:users", "manage:finance", "manage:system", "system:admin"]

/-- The type discriminator claim carried by non-access tokens. Access tokens
issued by generateAuthToken carry no type claim at all. -/
inductive TokenType
  | refresh
  | password_reset
  | email_verification
deriving DecidableEq

/-- Payload of a JWT signed by this server.  Access tokens set email, role and
permissions and leave typ empty; refresh and reset tokens set typ and sub
only.  iat and exp are seconds. -/
structure JwtPayload where
  sub : Nat
  typ : Option TokenType
  email : Option String
  role : Option Role
  permissions : Option (List Permission)
  iat : Nat
  exp : Nat
deriving DecidableEq

/-- A presented token: either one signed by this server (signature valid) or
any other string (signature check fails). -/
inductive Jwt
  | signed (p : JwtPayload)
  | invalid (raw : String)
deriving DecidableEq

inductive JwtErr
  | jsonWebTokenError
  | tokenExpiredError
deriving DecidableEq

/-- jwt.verify: signature check, then expiry check (expired when now has
reached exp). -/
def jwtVerify (tok : Jwt) (now : Nat) : Except JwtErr JwtPayload :=
  match tok with
  | .invalid _ => .error .jsonWebTokenError
  | .signed p => if p.exp ≤ now then .error .tokenExpiredError else .ok p

/-- Remaining validity of a signed token at a given time, in seconds. -/
def remainingValidity (tok : Jwt) (now : Nat) : Option Nat :=
  match tok with
  | .signed p => some (p.exp - now)
  | .invalid _ => none

/-- Model of bcrypt.hash on password strings: deterministic, collision-free,
not equal to the plaintext. -/
def bcryptHashPw (plain : String) : String := "bcrypt$" ++ plain

def bcryptComparePw (candidate hash : String) : Bool := hash == bcryptHashPw candidate

/-- Redis keys used by the auth core.  The source builds string keys by
prefixing a namespace; the three formats are disjoint and injective, so they
are modelled as an inductive key type. -/
inductive RKey
  | refreshTok (uid : Nat)
  | blacklist (tok : Jwt)
  | passwordReset (uid : Nat)
deriving DecidableEq

/-- Redis values stored by the auth core: a bcrypt hash of a raw token, or
the literal revocation marker. -/
inductive RVal
  | bhash (tok : Jwt)
  | revoked
deriving DecidableEq

/-- bcrypt.compare of a raw token against a stored token hash. -/
def bcryptCompareTok (tok : Jwt) (v : RVal) : Bool := v == RVal.bhash tok

structure REntry where
  key : RKey
  val : RVal
  ttl : Nat
deriving DecidableEq

abbrev Redis := List REntry

def Redis.getEntry (r : Redis) (k : RKey) : Option REntry :=
  r.find? (fun e => e.key == k)

def Redis.get (r : Redis) (k : RKey) : Option RVal :=
  (r.getEntry k).map (fun e => e.val)

def Redis.setEx (r : Redis) (k : RKey) (ttl : Nat) (v : RVal) : Redis :=
  { key := k, val := v, ttl := ttl } :: r.filter (fun e => e.key != k)

def Redis.del (r : Redis) (k : RKey) : Redis :=
  r.filter (fun e => e.key != k)

/-- A persisted user record (User schema fields the auth core reads). -/
structure StoredUser where
  id : Nat
  email : String
  passwordHash : String
  firstName : String
  lastName : String
  role : Role
  studentId : Option String
  department : Option String
  yearOfStudy : Option Int
  phone : Option String
  permissions : List Permission
  isActive : Bool
  emailVerified : Bool
  lastLogin : Option Nat
deriving DecidableEq

/-- A RoleApproval record (RoleApproval schema). allowedRoles is kept as the
list of enum strings, as the source compares role strings directly. -/
structure RoleApprovalRec where
  email : String
  allowedRoles : List String
  note : Option String
  isActive : Bool
deriving DecidableEq

/-- Environment-derived configuration.  jwtExpiresInParsed models
parseInt(process.env.JWT_EXPIRES_IN) (none when unset or NaN), the value the
blacklist and refresh-store TTLs use; accessLifetime and refreshLifetime are
the second counts jwt.sign derives from the same variables (defaults 24h and
7d). -/
structure Config where
  redisEnabled : Bool
  accessLifetime : Nat
  refreshLifetime : Nat
  jwtExpiresInParsed : Option Nat
  jwtRefreshExpiresInParsed : Option Nat
deriving DecidableEq

/-- The persistent world an auth operation reads and writes: the user
collection, the role-approval collection, the Redis cache, an id allocator
for new documents, and the outbox of password-reset emails handed to the
email collaborator. -/
structure World where
  users : List StoredUser
  approvals : List RoleApprovalRec
  redis : Redis
  nextId : Nat
  outbox : List (String × Jwt)
deriving DecidableEq

/-- Error taxonomy of the boundary (errorHandler.js): ApiError status codes,
plus internal for plain Error throws that reach the default 500 branch. -/
inductive ApiErr
  | validation (msg : String)
  | unauthenticated (msg : String)
  | forbidden (msg : String)
  | notFound (msg : String)
  | conflict (msg : String)
  | internal (msg : String)
deriving DecidableEq

/-- User.generateAuthToken: access token with email, role and permissions
snapshot, no type claim. -/
def generateAuthToken (u : StoredUser) (cfg : Config) (now : Nat) : Jwt :=
  .signed { sub := u.id, typ := none, email := some u.email, role := some u.role,
            permissions := some u.permissions, iat := now, exp := now + cfg.accessLifetime }

/-- User.generateRefreshToken: refresh token with sub and type only. -/
def generateRefreshToken (u : StoredUser) (cfg : Config) (now : Nat) : Jwt :=
  .signed { sub := u.id, typ := some .refresh, email := none, role := none,
            permissions := none, iat := now, exp := now + cfg.refreshLifetime }

/-- First pre-save hook of User.js: rewrite passwordHash with its bcrypt hash
whenever the passwordHash path was modified. -/
def hashPasswordHook (pwModified : Bool) (u : StoredUser) : StoredUser :=
  if pwModified then { u with passwordHash := bcryptHashPw u.passwordHash } else u

/-- Second pre-save hook of User.js: populate default permissions only when
the role path was modified and the permission list is currently empty. -/
def defaultPermissionsHook (roleModified : Bool) (u : StoredUser) : StoredUser :=
  if roleModified && u.permissions.isEmpty then
    { u with permissions := getDefaultPermissions u.role }
  else u

/-- User.save: the two pre-save hooks in declaration order. -/
def saveHooks (pwModified roleModified : Bool) (u : StoredUser) : StoredUser :=
  defaultPermissionsHook roleModified (hashPasswordHook pwModified u)

def findUserByEmail (w : World) (em : String) : Option StoredUser :=
  w.users.find? (fun u => u.email == em)

def findUserById (w : World) (uid : Nat) : Option StoredUser :=
  w.users.find? (fun u => u.id == uid)

/-- RoleApproval.findOne with email lowercased and isActive true. -/
def findActiveApproval (w : World) (em : String) : Option RoleApprovalRec :=
  w.approvals.find? (fun a => a.email == em && a.isActive)

/-- Whether an active approval for the email covers the requested role
string; false exactly when the source downgrades or reports not-pre-approved
(no approval record, or role not in allowedRoles). -/
def approvalCoversRole (w : World) (em roleStr : String) : Bool :=
  match findActiveApproval w em with
  | some a => a.allowedRoles.contains roleStr
  | none => false

/-! Validators (registerValidation, loginValidation, ... in auth.js).
isEmail and normalizeEmail are models of the validator.js library: the exact
email grammar is external to this repository, so the model keeps the
structure the routes rely on (single at-sign, nonempty parts, dotted domain,
no spaces; normalization lowercases). -/

def splitOnCharAux : List Char → Char → List Char → List (List Char)
  | [], _, acc => [acc.reverse]
  | c :: cs, sep, acc =>
    if c = sep then acc.reverse :: splitOnCharAux cs sep []
    else splitOnCharAux cs sep (c :: acc)

def splitOnChar (cs : List Char) (sep : Char) : List (List Char) :=
  splitOnCharAux cs sep []

/-- Character-wise lowercasing (the toLowerCase normalization). -/
def lowerStr (s : String) : String := ⟨s.data.map Char.toLower⟩

/-- Whitespace trimming from both ends (the trim sanitizer). -/
def trimStr (s : String) : String :=
  ⟨((s.data.dropWhile Char.isWhitespace).reverse.dropWhile Char.isWhitespace).reverse⟩

def isEmailStr (s : String) : Bool :=
  match splitOnChar s.data '@' with
  | [lp, dp] =>
    !lp.isEmpty && !dp.isEmpty && decide (2 ≤ (splitOnChar dp '.').length) &&
      ((splitOnChar dp '.').all (fun part => !part.isEmpty)) &&
      s.data.all (fun c => !c.isWhitespace)
  | _ => false

def normalizeEmail (s : String) : String := lowerStr s

def passwordSpecials : List Char := ['@', '$', '!', '%', '*', '?', '&']

def passwordClassChar (c : Char) : Bool :=
  c.isLower || c.isUpper || c.isDigit || passwordSpecials.contains c

/-- The password rule of the routes: length at least 8, and the regex with
one lookahead per character class anchored at a first character drawn from
the class. -/
def passwordPolicyOk (p : String) : Bool :=
  decide (8 ≤ p.length) && p.toList.any Char.isLower && p.toList.any Char.isUpper &&
    p.toList.any Char.isDigit && p.toList.any (fun c => passwordSpecials.contains c) &&
    (match p.toList with
     | [] => false
     | c :: _ => passwordClassChar c)

def passwordPolicyMsg : String :=
  "Password must contain at least one uppercase letter, one lowercase letter, one number, and one special character"

def nameClassChar (c : Char) : Bool :=
  c.isAlpha || c.isWhitespace || c == '-' || c == '\x27'

/-- firstName and lastName rule: trimmed length between 2 and 100, letters,
whitespace, hyphens and apostrophes only. -/
def nameFieldOk (s : String) : Bool :=
  let t := trimStr s
  decide (2 ≤ t.length) && decide (t.length ≤ 100) && t.toList.all nameClassChar && !t.isEmpty

/-- Phone rule: optional leading plus, a first digit 1 to 9, then at most 15
further digits. -/
def phoneOk (s : String) : Bool :=
  let t := trimStr s
  let cs := match t.toList with
    | '+' :: rest => rest
    | cs => cs
  match cs with
  | [] => false
  | d :: rest => decide ('1' ≤ d) && decide (d ≤ '9') && rest.all Char.isDigit && decide (rest.length ≤ 15)

/-- The roles self-registration may request; admin is absent. -/
def registerRoles : List String := ["student", "team_member", "mentor", "researcher", "community"]

/-- The desired-role values accepted at login; admin is present. -/
def loginRoles : List String := ["student", "team_member", "mentor", "researcher", "community", "admin"]

structure RegisterReq where
  email : String
  password : String
  firstName : String
  lastName : String
  role : Option String
  studentId : Option String
  department : Option String
  yearOfStudy : Option Int
  phone : Option String
deriving DecidableEq

/-- The failure messages registerValidation collects, in declaration order. -/
def registerValidationMsgs (r : RegisterReq) : List String :=
  (if isEmailStr r.email then [] else ["Please provide a valid email address"]) ++
  (if r.email.length ≤ 255 then [] else ["Email cannot exceed 255 characters"]) ++
  (if passwordPolicyOk r.password then [] else [passwordPolicyMsg]) ++
  (if nameFieldOk r.firstName then [] else ["First name must be between 2 and 100 characters"]) ++
  (if nameFieldOk r.lastName then [] else ["Last name must be between 2 and 100 characters"]) ++
  (match r.role with
   | none => []
   | some ro => if registerRoles.contains ro then [] else ["Invalid role specified"]) ++
  (match r.studentId with
   | none => []
   | some sid => if (trimStr sid).length ≤ 50 then [] else ["Student ID cannot exceed 50 characters"]) ++
  (match r.department with
   | none => []
   | some d => if (trimStr d).length ≤ 100 then [] else ["Department cannot exceed 100 characters"]) ++
  (match r.yearOfStudy with
   | none => []
   | some y => if 1 ≤ y ∧ y ≤ 8 then [] else ["Year of study must be between 1 and 8"]) ++
  (match r.phone with
   | none => []
   | some ph => if phoneOk ph then [] else ["Please provide a valid phone number"])

structure RoleNotice where
  requestedRole : String
  assignedRole : Role
  message : String
deriving DecidableEq

structure AuthTokens where
  accessToken : Jwt
  refreshToken : Jwt
deriving DecidableEq

structure RegisterResp where
  message : String
  userId : Nat
  userEmail : String
  userRole : Role
  tokens : AuthTokens
  roleNotice : Option RoleNotice
deriving DecidableEq

/-- The fixed roleNotice.message of the register route. -/
def registerRoleNoticeMsg : String :=
  "Your requested role is not pre-approved. You have been registered as a student. An admin can update your role later."

/-- Whether the studentId conflict lookup of the register route finds an
existing user. -/
def studentIdTaken (w : World) (r : RegisterReq) : Bool :=
  match r.studentId with
  | some sid => (w.users.find? (fun u => u.studentId == some sid)).isSome
  | none => false

/-- TTL the source passes to setEx for refresh-token hashes:
parseInt(JWT_REFRESH_EXPIRES_IN) with a 7-day fallback. -/
def refreshStoreTtl (cfg : Config) : Nat :=
  cfg.jwtRefreshExpiresInParsed.getD (7 * 24 * 60 * 60)

/-- TTL the source passes to setEx for the access-token blacklist:
parseInt(JWT_EXPIRES_IN) with a 24-hour fallback. -/
def blacklistTtl (cfg : Config) : Nat :=
  cfg.jwtExpiresInParsed.getD (24 * 60 * 60)

/-- POST /api/auth/register. -/
def register (cfg : Config) (w : World) (now : Nat) (r : RegisterReq) :
    Except ApiErr RegisterResp × World :=
  match registerValidationMsgs r with
  | m :: ms => (.error (.validation (String.intercalate ", " (m :: ms))), w)
  | [] =>
    let email := normalizeEmail r.email
    if (findUserByEmail w email).isSome then
      (.error (.conflict "User with this email already exists"), w)
    else if studentIdTaken w r then
      (.error (.conflict "Student ID is already taken"), w)
    else
      let roleStr := r.role.getD "student"
      let requestedRole := roleStr
      let roleAdjusted := roleStr != "student" && !approvalCoversRole w (lowerStr email) roleStr
      let assignedRoleStr := if roleAdjusted then "student" else roleStr
      let assignedRole := (Role.ofStr assignedRoleStr).getD .student
      let newUser : StoredUser := {
        id := w.nextId, email := email, passwordHash := r.password,
        firstName := trimStr r.firstName, lastName := trimStr r.lastName,
        role := assignedRole, studentId := r.studentId.map trimStr,
        department := r.department.map trimStr, yearOfStudy := r.yearOfStudy,
        phone := r.phone.map trimStr,
        permissions := [], isActive := true, emailVerified := false, lastLogin := none }
      let user := saveHooks true true newUser
      let accessToken := generateAuthToken user cfg now
      let refreshToken := generateRefreshToken user cfg now
      let redis1 := if cfg.redisEnabled then
          w.redis.setEx (.refreshTok user.id) (refreshStoreTtl cfg) (.bhash refreshToken)
        else w.redis
      let w1 := { w with users := w.users ++ [user], redis := redis1, nextId := w.nextId + 1 }
      (.ok {
        message := if roleAdjusted then
            "User registered successfully. Requested role \x27" ++ requestedRole ++
              "\x27 is not pre-approved; assigned \x27student\x27."
          else "User registered successfully",
        userId := user.id, userEmail := user.email, userRole := user.role,
        tokens := { accessToken := accessToken, refreshToken := refreshToken },
        roleNotice := if roleAdjusted then
            some { requestedRole := requestedRole, assignedRole := user.role,
                   message := registerRoleNoticeMsg }
          else none }, w1)

structure LoginReq where
  email : String
  password : String
  desiredRole : Option String
deriving DecidableEq

/-- The failure messages loginValidation collects, in declaration order. -/
def loginValidationMsgs (r : LoginReq) : List String :=
  (if isEmailStr r.email then [] else ["Please provide a valid email address"]) ++
  (if r.password.isEmpty then ["Password is required"] else []) ++
  (match r.desiredRole with
   | none => []
   | some d => if loginRoles.contains d then [] else ["Invalid desired role specified"])

structure LoginResp where
  userId : Nat
  userEmail : String
  userRole : Role
  tokens : AuthTokens
  roleNotice : Option RoleNotice
deriving DecidableEq

def updateUser (users : List StoredUser) (u : StoredUser) : List StoredUser :=
  users.map (fun v => if v.id = u.id then u else v)

/-- The desired-role notice of the login route: informational only, with one
wording when the role is pre-approved and another when it is not. -/
def loginRoleNotice (w : World) (u : StoredUser) (desiredRole : Option String) :
    Option RoleNotice :=
  match desiredRole with
  | none => none
  | some d =>
    if d == u.role.toStr then none
    else if approvalCoversRole w (lowerStr u.email) d then
      some { requestedRole := d, assignedRole := u.role,
             message := "Requested role \x27" ++ d ++
               "\x27 is approved but not yet assigned to your account. Continuing as \x27" ++
               u.role.toStr ++ "\x27. An admin can update your role." }
    else
      some { requestedRole := d, assignedRole := u.role,
             message := "Requested role \x27" ++ d ++
               "\x27 is not pre-approved. Continuing as \x27" ++ u.role.toStr ++
               "\x27. Please log in as student or contact admin." }

/-- POST /api/auth/login. -/
def login (cfg : Config) (w : World) (now : Nat) (r : LoginReq) :
    Except ApiErr LoginResp × World :=
  match loginValidationMsgs r with
  | m :: ms => (.error (.validation (String.intercalate ", " (m :: ms))), w)
  | [] =>
    match findUserByEmail w (normalizeEmail r.email) with
    | none => (.error (.unauthenticated "Invalid email or password"), w)
    | some u =>
      if !u.isActive then
        (.error (.forbidden "Account is deactivated. Please contact administrator."), w)
      else if !(bcryptComparePw r.password u.passwordHash) then
        (.error (.unauthenticated "Invalid email or password"), w)
      else
        let u1 := { u with lastLogin := some now }
        let roleNotice := loginRoleNotice w u1 r.desiredRole
        let accessToken := generateAuthToken u1 cfg now
        let refreshToken := generateRefreshToken u1 cfg now
        let redis1 := if cfg.redisEnabled then
            w.redis.setEx (.refreshTok u1.id) (refreshStoreTtl cfg) (.bhash refreshToken)
          else w.redis
        let w1 := { w with users := updateUser w.users u1, redis := redis1 }
        (.ok { userId := u1.id, userEmail := u1.email, userRole := u1.role,
               tokens := { accessToken := accessToken, refreshToken := refreshToken },
               roleNotice := roleNotice }, w1)

structure RefreshResp where
  tokens : AuthTokens
deriving DecidableEq

/-- POST /api/auth/refresh.  Errors thrown here are plain Error objects, so
the boundary maps them to the internal branch of the taxonomy. -/
def refresh (cfg : Config) (w : World) (now : Nat) (refreshToken : Option Jwt) :
    Except ApiErr RefreshResp × World :=
  match refreshToken with
  | none => (.error (.internal "Refresh token is required"), w)
  | some tok =>
    match jwtVerify tok now with
    | .error .jsonWebTokenError => (.error (.internal "Invalid refresh token"), w)
    | .error .tokenExpiredError => (.error (.internal "Refresh token expired"), w)
    | .ok p =>
      if p.typ ≠ some .refresh then (.error (.internal "Invalid token type"), w)
      else
        let storedCheck : Option ApiErr :=
          if cfg.redisEnabled then
            match w.redis.get (.refreshTok p.sub) with
            | none => some (.internal "Refresh token not found or expired")
            | some v => if bcryptCompareTok tok v then none else some (.internal "Invalid refresh token")
          else none
        match storedCheck with
        | some e => (.error e, w)
        | none =>
          match findUserById w p.sub with
          | none => (.error (.internal "User not found or inactive"), w)
          | some u =>
            if !u.isActive then (.error (.internal "User not found or inactive"), w)
            else
              let newAccessToken := generateAuthToken u cfg now
              let newRefreshToken := generateRefreshToken u cfg now
              let redis1 := if cfg.redisEnabled then
                  w.redis.setEx (.refreshTok u.id) (refreshStoreTtl cfg) (.bhash newRefreshToken)
                else w.redis
              (.ok { tokens := { accessToken := newAccessToken, refreshToken := newRefreshToken } },
               { w with redis := redis1 })

/-- The Authorization header: either a well-formed bearer header carrying a
token, or any other nonempty header value. -/
inductive AuthHeaderVal
  | bearer (tok : Jwt)
  | nonBearer (s : String)
deriving DecidableEq

/-- authHeader.substring(7): the carried token for a bearer header; for any
other header value, the tail of the raw string, which is not a token signed
by this server. -/
def headerSubstring7 (h : AuthHeaderVal) : Jwt :=
  match h with
  | .bearer tok => tok
  | .nonBearer s => .invalid (s.drop 7)

/-- POST /api/auth/logout: requires a structurally valid refresh token, then
deletes the stored refresh hash and, when an Authorization header is present,
blacklists its token with the configured fixed TTL. -/
def logout (cfg : Config) (w : World) (now : Nat) (refreshToken : Option Jwt)
    (authHeader : Option AuthHeaderVal) : Except ApiErr String × World :=
  match refreshToken with
  | none => (.error (.internal "Refresh token is required"), w)
  | some tok =>
    match jwtVerify tok now with
    | .error .jsonWebTokenError => (.error (.internal "Invalid refresh token"), w)
    | .error .tokenExpiredError => (.error (.internal "Refresh token expired"), w)
    | .ok p =>
      if p.typ ≠ some .refresh then (.error (.internal "Invalid token type"), w)
      else
        let redis1 := if cfg.redisEnabled then
            let r1 := w.redis.del (.refreshTok p.sub)
            match authHeader with
            | some h => r1.setEx (.blacklist (headerSubstring7 h)) (blacklistTtl cfg) .revoked
            | none => r1
          else w.redis
        (.ok "Logged out successfully", { w with redis := redis1 })

/-- The single success message of POST /api/auth/forgot-password. -/
def forgotPasswordMsg : String :=
  "If an account with that email exists, a password reset link has been sent"

/-- POST /api/auth/forgot-password. -/
def forgotPassword (cfg : Config) (w : World) (now : Nat) (email : String) :
    Except ApiErr String × World :=
  if !(isEmailStr email) then
    (.error (.validation "Please provide a valid email address"), w)
  else
    match findUserByEmail w (normalizeEmail email) with
    | none => (.ok forgotPasswordMsg, w)
    | some u =>
      let resetToken : Jwt := .signed
        { sub := u.id, typ := some .password_reset,
          email := none, role := none, permissions := none, iat := now, exp := now + 3600 }
      let redis1 := if cfg.redisEnabled then
          w.redis.setEx (.passwordReset u.id) 3600 (.bhash resetToken)
        else w.redis
      (.ok forgotPasswordMsg, { w with redis := redis1, outbox := w.outbox ++ [(u.email, resetToken)] })

/-- The failure messages changePasswordValidation collects. -/
def changePasswordValidationMsgs (currentPassword newPassword : String) : List String :=
  (if currentPassword.isEmpty then ["Current password is required"] else []) ++
  (if passwordPolicyOk newPassword then [] else [passwordPolicyMsg])

/-- POST /api/auth/change-password (runs behind verifyToken; reqUserId is the
authenticated identity attached by the guard). -/
def changePassword (cfg : Config) (w : World) (_now : Nat) (reqUserId : Nat)
    (authHeader : Option AuthHeaderVal) (currentPassword newPassword : String) :
    Except ApiErr String × World :=
  match changePasswordValidationMsgs currentPassword newPassword with
  | m :: ms => (.error (.validation (String.intercalate ", " (m :: ms))), w)
  | [] =>
    match findUserById w reqUserId with
    | none => (.error (.unauthenticated "User not found"), w)
    | some u =>
      if !(bcryptComparePw currentPassword u.passwordHash) then
        (.error (.unauthenticated "Current password is incorrect"), w)
      else if bcryptComparePw newPassword u.passwordHash then
        (.error (.validation "New password must be different from the current password"), w)
      else
        let u1 := saveHooks true false { u with passwordHash := newPassword }
        let redis1 := if cfg.redisEnabled then
            let r1 := w.redis.del (.refreshTok u.id)
            match authHeader with
            | some h => r1.setEx (.blacklist (headerSubstring7 h)) (blacklistTtl cfg) .revoked
            | none => r1
          else w.redis
        (.ok "Password changed successfully. Please log in again.",
         { w with users := updateUser w.users u1, redis := redis1 })

/-- The identity verifyToken attaches to the request. -/
structure AuthedUser where
  id : Nat
  email : String
  role : Role
  firstName : String
  lastName : String
  permissions : List Permission
deriving DecidableEq

/-- The verifyToken guard (middleware/auth.js): bearer extraction, blacklist
check when Redis is enabled, signature and expiry verification, then a live
re-fetch of the user record with existence and isActive checks. -/
def verifyToken (cfg : Config) (w : World) (now : Nat)
    (authHeader : Option AuthHeaderVal) : Except ApiErr AuthedUser :=
  match authHeader with
  | none => .error (.unauthenticated "Access token required")
  | some (.nonBearer _) => .error (.unauthenticated "Access token required")
  | some (.bearer tok) =>
    if cfg.redisEnabled && (w.redis.get (.blacklist tok)).isSome then
      .error (.unauthenticated "Token has been revoked")
    else
      match jwtVerify tok now with
      | .error .jsonWebTokenError => .error (.unauthenticated "Invalid token")
      | .error .tokenExpiredError => .error (.unauthenticated "Token expired")
      | .ok p =>
        match findUserById w p.sub with
        | none => .error (.unauthenticated "User no longer exists")
        | some u =>
          if !u.isActive then .error (.unauthenticated "User account is deactivated")
          else .ok { id := u.id, email := u.email, role := u.role,
                     firstName := u.firstName, lastName := u.lastName,
                     permissions := u.permissions }

structure TeamMemberRef where
  userId : Nat
deriving DecidableEq

/-- A resource as requireOwnership reads it: an optional userId owner field,
an optional createdBy owner field, and an optional membership roster. -/
structure Resource where
  userId : Option Nat
  createdBy : Option Nat
  teamMembers : Option (List TeamMemberRef)
deriving DecidableEq

/-- The owner field requireOwnership consults: userId when the document has
one, otherwise createdBy. -/
def ownerField (r : Resource) : Option Nat :=
  if r.userId.isSome then r.userId else r.createdBy

/-- Membership in the resource-specific roster (teamMembers array). -/
def isMemberOf (r : Resource) (uid : Nat) : Bool :=
  match r.teamMembers with
  | some ms => ms.any (fun m => m.userId = uid)
  | none => false

def lookupResource (resources : List (Nat × Resource)) (rid : Nat) : Option Resource :=
  (resources.find? (fun pr => pr.1 = rid)).map Prod.snd

/-- The requireOwnership guard (middleware/auth.js), with the injected model
lookup represented by an association list of documents. -/
def requireOwnership (resources : List (Nat × Resource)) (reqUser : Option AuthedUser)
    (resourceId : Nat) : Except ApiErr Resource :=
  match reqUser with
  | none => .error (.unauthenticated "Authentication required. Please log in.")
  | some u =>
    match lookupResource resources resourceId with
    | none => .error (.notFound "Resource not found")
    | some res =>
      if u.role = .admin then .ok res
      else if ownerField res = some u.id then .ok res
      else if isMemberOf res u.id then .ok res
      else .error (.forbidden "Access denied. You do not own this resource")

/-! Shared lemmas about the store and hash models, and concrete sample data
used to exercise the theorems on closed inputs. -/

theorem redis_getEntry_setEx_self (r : Redis) (k : RKey) (ttl : Nat) (v : RVal) :
    (r.setEx k ttl v).getEntry k = some { key := k, val := v, ttl := ttl } := by
  unfold Redis.setEx Redis.getEntry
  rw [List.find?_cons_of_pos]
  simp

theorem redis_get_setEx_self (r : Redis) (k : RKey) (ttl : Nat) (v : RVal) :
    (r.setEx k ttl v).get k = some v := by
  unfold Redis.get
  rw [redis_getEntry_setEx_self]
  rfl

/-- Exactly one raw token passes bcrypt.compare against a stored token hash:
the one that was hashed. -/
theorem bcryptCompareTok_iff (t tok : Jwt) :
    bcryptCompareTok t (.bhash tok) = true ↔ t = tok := by
  unfold bcryptCompareTok
  constructor
  · intro h
    have := of_decide_eq_true h
    exact (RVal.bhash.inj this).symm
  · intro h
    subst h
    simp

def cfgOn : Config :=
  { redisEnabled := true, accessLifetime := 86400, refreshLifetime := 604800,
    jwtExpiresInParsed := none, jwtRefreshExpiresInParsed := none }

def alice : StoredUser :=
  { id := 1, email := "a@b.c", passwordHash := bcryptHashPw "Aa1!aaaa",
    firstName := "Al", lastName := "Bo", role := .student, studentId := none,
    department := none, yearOfStudy := none, phone := none,
    permissions := getDefaultPermissions .student, isActive := true,
    emailVerified := false, lastLogin := none }

def carol : StoredUser :=
  { id := 2, email := "c@d.e", passwordHash := bcryptHashPw "Bb2!bbbb",
    firstName := "Ca", lastName := "Ro", role := .mentor, studentId := none,
    department := none, yearOfStudy := none, phone := none,
    permissions := getDefaultPermissions .mentor, isActive := false,
    emailVerified := false, lastLogin := none }

def w0 : World :=
  { users := [alice, carol], approvals := [], redis := [], nextId := 3, outbox := [] }

/-- C8: on a user save where the role field is modified, the role-derived
default permission set is assigned exactly when the permission set is empty
at that moment; a non-empty permission set is never overwritten (whether or
not the role changed), a save without a role change never touches
permissions, and the hook changes no other field.  Each role maps to the
fixed list enumerated by getDefaultPermissions. -/
theorem role_permission_derivation (m : Bool) (u : StoredUser) :
    (u.permissions ≠ [] → defaultPermissionsHook m u = u) ∧
    (u.permissions = [] → (defaultPermissionsHook true u).permissions = getDefaultPermissions u.role) ∧
    defaultPermissionsHook false u = u ∧
    ((defaultPermissionsHook true u).permissions =
      if u.permissions = [] then getDefaultPermissions u.role else u.permissions) ∧
    (defaultPermissionsHook m u).role = u.role ∧
    (defaultPermissionsHook m u).email = u.email ∧
    (defaultPermissionsHook m u).isActive = u.isActive ∧
    (defaultPermissionsHook m u).passwordHash = u.passwordHash := by
  cases hp : u.permissions with
  | nil => cases m <;> simp [defaultPermissionsHook, hp]
  | cons a l => cases m <;> simp [defaultPermissionsHook, hp]

theorem role_permission_derivation_witness :
    (defaultPermissionsHook true { alice with permissions := [] }).permissions =
      getDefaultPermissions Role.student ∧
    defaultPermissionsHook true alice = alice :=
  ⟨(role_permission_derivation true { alice with permissions := [] }).2.1 rfl,
   (role_permission_derivation true alice).1 (by simp [alice, getDefaultPermissions])⟩

/-- C7: for an authenticated identity, requireOwnership passes exactly when
the identity is an admin, or the resource's owner field (userId when present,
else createdBy) is the identity's id, or the identity appears in the
resource's teamMembers roster; any other authenticated identity gets
Forbidden, and a missing resource gets NotFound. -/
theorem requireOwnership_policy (resources : List (Nat × Resource)) (u : AuthedUser) (rid : Nat) :
    (lookupResource resources rid = none →
      requireOwnership resources (some u) rid = .error (.notFound "Resource not found")) ∧
    ∀ res, lookupResource resources rid = some res →
      ((requireOwnership resources (some u) rid = .ok res ↔
         (u.role = .admin ∨ ownerField res = some u.id ∨ isMemberOf res u.id = true)) ∧
       (¬(u.role = .admin ∨ ownerField res = some u.id ∨ isMemberOf res u.id = true) →
         requireOwnership resources (some u) rid =
           .error (.forbidden "Access denied. You do not own this resource"))) := by
  constructor
  · intro h
    simp [requireOwnership, h]
  · intro res h
    by_cases ha : u.role = .admin
    · simp [requireOwnership, h, ha]
    · by_cases ho : ownerField res = some u.id
      · simp [requireOwnership, h, ha, ho]
      · by_cases hm : isMemberOf res u.id = true
        · simp [requireOwnership, h, ha, ho, hm]
        · simp [requireOwnership, h, ha, ho, hm]

def res7 : Resource := { userId := some 1, createdBy := none, teamMembers := none }

def resources7 : List (Nat × Resource) := [(7, res7)]

def ownerIdentity : AuthedUser :=
  { id := 1, email := "a@b.c", role := Role.student, firstName := "Al",
    lastName := "Bo", permissions := [] }

def strangerIdentity : AuthedUser :=
  { id := 2, email := "c@d.e", role := Role.mentor, firstName := "Ca",
    lastName := "Ro", permissions := [] }

theorem requireOwnership_policy_witness :
    requireOwnership resources7 (some ownerIdentity) 7 = .ok res7 ∧
    requireOwnership resources7 (some strangerIdentity) 7 =
      .error (.forbidden "Access denied. You do not own this resource") ∧
    requireOwnership resources7 (some strangerIdentity) 8 =
      .error (.notFound "Resource not found") :=
  ⟨((requireOwnership_policy resources7 ownerIdentity 7).2 res7 (by decide)).1.mpr
      (Or.inr (Or.inl (by decide))),
   ((requireOwnership_policy resources7 strangerIdentity 7).2 res7 (by decide)).2 (by decide),
   (requireOwnership_policy resources7 strangerIdentity 8).1 (by decide)⟩

/-- C6: forgot-password returns the identical success response for an email
with a registered account and for one without; the reply never discloses
whether the email is registered. -/
theorem forgot_password_uniform_response (cfg : Config) (w : World) (now : Nat)
    (e1 e2 : String) (u : StoredUser)
    (hv1 : isEmailStr e1 = true) (hv2 : isEmailStr e2 = true)
    (hu : findUserByEmail w (normalizeEmail e1) = some u)
    (hn : findUserByEmail w (normalizeEmail e2) = none) :
    (forgotPassword cfg w now e1).1 = .ok forgotPasswordMsg ∧
    (forgotPassword cfg w now e2).1 = .ok forgotPasswordMsg ∧
    (forgotPassword cfg w now e1).1 = (forgotPassword cfg w now e2).1 := by
  refine ⟨?_, ?_, ?_⟩ <;> simp [forgotPassword, hv1, hv2, hu, hn]

theorem forgot_password_uniform_response_witness :
    (forgotPassword cfgOn w0 5 "a@b.c").1 = .ok forgotPasswordMsg ∧
    (forgotPassword cfgOn w0 5 "z@b.c").1 = .ok forgotPasswordMsg ∧
    (forgotPassword cfgOn w0 5 "a@b.c").1 = (forgotPassword cfgOn w0 5 "z@b.c").1 :=
  forgot_password_uniform_response cfgOn w0 5 "a@b.c" "z@b.c" alice
    (by decide) (by decide) (by decide) (by decide)

/-- C2: a signed, unexpired, non-blacklisted access token whose subject user
currently has isActive = false is rejected by the verifyToken guard with an
Unauthenticated (401) error.  The statement quantifies over all claims
embedded in the token (role, email, permission snapshot), so the outcome
depends only on the freshly fetched user record, not on the token's claims. -/
theorem verifyToken_rejects_deactivated_user (cfg : Config) (w : World) (now : Nat)
    (p : JwtPayload) (u : StoredUser)
    (hnb : w.redis.get (.blacklist (.signed p)) = none)
    (hexp : now < p.exp)
    (hu : findUserById w p.sub = some u)
    (hina : u.isActive = false) :
    verifyToken cfg w now (some (.bearer (.signed p))) =
      .error (.unauthenticated "User account is deactivated") := by
  have hle : ¬ p.exp ≤ now := Nat.not_le.mpr hexp
  simp [verifyToken, jwtVerify, hnb, hle, hu, hina]

def deactivatedAccessTok : Jwt :=
  .signed { sub := 2, typ := none, email := some "c@d.e", role := some .mentor,
            permissions := some (getDefaultPermissions .mentor), iat := 0, exp := 86400 }

theorem verifyToken_rejects_deactivated_user_witness :
    verifyToken cfgOn w0 5 (some (.bearer deactivatedAccessTok)) =
      .error (.unauthenticated "User account is deactivated") :=
  verifyToken_rejects_deactivated_user cfgOn w0 5 _ carol
    (by decide) (by decide) (by decide) (by decide)

/-- C5 counterexample: a logout request with no refreshToken in the body is
answered with an error, not a success response, so logout does not succeed
for every caller. -/
theorem logout_counterexample :
    (logout cfgOn w0 0 none none).1 = .error (.internal "Refresh token is required") := rfl

/-- C5 (amended): a logout request succeeds exactly when its refreshToken is
a validly signed, unexpired token of type refresh — independently of the
Session Store contents and of the Authorization header — and repeating the
same logout request also succeeds (idempotent for the caller); a missing
refreshToken, one not signed by the server, an expired one, or one whose
type discriminator is not refresh is each answered with an error, not a
success response. -/
theorem logout_policy (cfg : Config) (w : World) (now : Nat)
    (p q t : JwtPayload) (s : String) (hdr : Option AuthHeaderVal)
    (hp1 : p.typ = some .refresh) (hp2 : now < p.exp)
    (hq : q.exp ≤ now)
    (ht1 : t.typ ≠ some .refresh) (ht2 : now < t.exp) :
    (logout cfg w now (some (.signed p)) hdr).1 = .ok "Logged out successfully" ∧
    (logout cfg (logout cfg w now (some (.signed p)) hdr).2 now
        (some (.signed p)) hdr).1 = .ok "Logged out successfully" ∧
    (logout cfg w now none hdr).1 = .error (.internal "Refresh token is required") ∧
    (logout cfg w now (some (.invalid s)) hdr).1 =
      .error (.internal "Invalid refresh token") ∧
    (logout cfg w now (some (.signed q)) hdr).1 =
      .error (.internal "Refresh token expired") ∧
    (logout cfg w now (some (.signed t)) hdr).1 =
      .error (.internal "Invalid token type") := by
  have hle : ¬ p.exp ≤ now := Nat.not_le.mpr hp2
  have hlet : ¬ t.exp ≤ now := Nat.not_le.mpr ht2
  have hsucc : ∀ w' : World, (logout cfg w' now (some (.signed p)) hdr).1 =
      .ok "Logged out successfully" := by
    intro w'
    simp [logout, jwtVerify, hle, hp1]
  refine ⟨hsucc w, hsucc _, rfl, rfl, ?_, ?_⟩
  · simp [logout, jwtVerify, hq]
  · simp [logout, jwtVerify, hlet, ht1]

def sampleRefreshTok : Jwt :=
  .signed { sub := 1, typ := some .refresh, email := none, role := none,
            permissions := none, iat := 0, exp := 604800 }

def expiredRefreshTok : Jwt :=
  .signed { sub := 1, typ := some .refresh, email := none, role := none,
            permissions := none, iat := 0, exp := 3 }

def wrongTypeTok : Jwt :=
  .signed { sub := 1, typ := none, email := some "a@b.c", role := some .student,
            permissions := some [], iat := 0, exp := 86400 }

theorem logout_policy_witness :
    (logout cfgOn w0 5 (some sampleRefreshTok) none).1 = .ok "Logged out successfully" ∧
    (logout cfgOn (logout cfgOn w0 5 (some sampleRefreshTok) none).2 5
        (some sampleRefreshTok) none).1 = .ok "Logged out successfully" ∧
    (logout cfgOn w0 5 none none).1 = .error (.internal "Refresh token is required") ∧
    (logout cfgOn w0 5 (some (.invalid "garbage")) none).1 =
      .error (.internal "Invalid refresh token") ∧
    (logout cfgOn w0 5 (some expiredRefreshTok) none).1 =
      .error (.internal "Refresh token expired") ∧
    (logout cfgOn w0 5 (some wrongTypeTok) none).1 =
      .error (.internal "Invalid token type") :=
  logout_policy cfgOn w0 5 _ _ _ "garbage" none
    (by decide) (by decide) (by decide) (by decide) (by decide)

/-- C10: a registration request with role admin fails validation — admin is
absent from the register validator's allowed role values — so the request is
rejected with a ValidationError, the world is untouched (no user created, no
pre-approval lookup has any effect), and the outcome is identical whatever
RoleApproval records exist. -/
theorem register_admin_role_rejected (cfg : Config) (w : World) (now : Nat) (r : RegisterReq)
    (h : r.role = some "admin") :
    (∃ m, (register cfg w now r).1 = .error (.validation m)) ∧
    (register cfg w now r).2 = w ∧
    ∀ aps, (register cfg { w with approvals := aps } now r).1 = (register cfg w now r).1 := by
  have hc : registerRoles.contains "admin" = false := by decide
  have hmem : "Invalid role specified" ∈ registerValidationMsgs r := by
    simp [registerValidationMsgs, h, hc]
    exact Or.inr (Or.inl (by decide))
  obtain ⟨m, ms, hms⟩ : ∃ m ms, registerValidationMsgs r = m :: ms := by
    cases hx : registerValidationMsgs r with
    | nil => rw [hx] at hmem; exact absurd hmem (List.not_mem_nil _)
    | cons a l => exact ⟨a, l, rfl⟩
  refine ⟨⟨String.intercalate ", " (m :: ms), ?_⟩, ?_, ?_⟩
  · simp [register, hms]
  · simp [register, hms]
  · intro aps
    simp [register, hms]

def regReqAdmin : RegisterReq :=
  { email := "new@b.c", password := "Aa1!aaaa", firstName := "Ne", lastName := "Wu",
    role := some "admin", studentId := none, department := none,
    yearOfStudy := none, phone := none }

def adminApproval : RoleApprovalRec :=
  { email := "new@b.c", allowedRoles := ["admin"], note := none, isActive := true }

theorem register_admin_role_rejected_witness :
    (∃ m, (register cfgOn w0 9 regReqAdmin).1 = .error (.validation m)) ∧
    (register cfgOn w0 9 regReqAdmin).2 = w0 ∧
    (register cfgOn { w0 with approvals := [adminApproval] } 9 regReqAdmin).1 =
      (register cfgOn w0 9 regReqAdmin).1 :=
  have h := register_admin_role_rejected cfgOn w0 9 regReqAdmin rfl
  ⟨h.1, h.2.1, h.2.2 [adminApproval]⟩

/-- C1: a registration request passing validation, for a fresh email and
free student id, whose requested role is not the default student tier and
for whose (lowercased) email no active RoleApproval covers that role, still
succeeds: the created user's role is student and the response carries a
roleNotice naming the requested role and the assigned student role. -/
theorem register_downgrades_unapproved_role (cfg : Config) (w : World) (now : Nat)
    (r : RegisterReq) (rs : String)
    (hv : registerValidationMsgs r = [])
    (hrole : r.role = some rs)
    (hrs : rs ≠ "student")
    (hemail : findUserByEmail w (normalizeEmail r.email) = none)
    (hsid : studentIdTaken w r = false)
    (happ : approvalCoversRole w (lowerStr (normalizeEmail r.email)) rs = false) :
    (register cfg w now r).1.isOk = true ∧
    ((register cfg w now r).1.toOption.map (fun resp => (resp.userRole, resp.roleNotice))) =
      some (Role.student, some { requestedRole := rs, assignedRole := Role.student,
                                 message := registerRoleNoticeMsg }) ∧
    ((register cfg w now r).2.users.getLast?).map StoredUser.role = some Role.student ∧
    (register cfg w now r).2.users.length = w.users.length + 1 := by
  have hadj : (rs != "student") = true := bne_iff_ne.mpr hrs
  refine ⟨?_, ?_, ?_, ?_⟩ <;>
    (simp [register, hv, hrole, hemail, hsid, happ, hadj, saveHooks, hashPasswordHook,
           defaultPermissionsHook, Role.ofStr, Except.isOk, Except.toOption,
           List.getLast?_concat] <;> try rfl)

def regReqMentor : RegisterReq :=
  { email := "new@b.c", password := "Aa1!aaaa", firstName := "Ne", lastName := "Wu",
    role := some "mentor", studentId := none, department := none,
    yearOfStudy := none, phone := none }

theorem register_downgrades_unapproved_role_witness :
    (register cfgOn w0 9 regReqMentor).1.isOk = true ∧
    ((register cfgOn w0 9 regReqMentor).1.toOption.map
        (fun resp => (resp.userRole, resp.roleNotice))) =
      some (Role.student, some { requestedRole := "mentor", assignedRole := Role.student,
                                 message := registerRoleNoticeMsg }) ∧
    ((register cfgOn w0 9 regReqMentor).2.users.getLast?).map StoredUser.role =
      some Role.student ∧
    (register cfgOn w0 9 regReqMentor).2.users.length = w0.users.length + 1 :=
  register_downgrades_unapproved_role cfgOn w0 9 regReqMentor "mentor"
    (by decide) rfl (by decide) (by decide) (by decide) (by decide)

def sampleAccessTok : Jwt :=
  .signed { sub := 1, typ := none, email := some "a@b.c", role := some .student,
            permissions := some (getDefaultPermissions .student), iat := 0, exp := 86400 }

/-- C4 counterexample: with the default configuration, a logout at time 3600
holding an access token issued at time 0 with expiry 86400 blacklists the
token with TTL 86400 — the full configured lifetime — while the token's
remaining validity is 82800 seconds, so the blacklist TTL is not the
remaining validity. -/
theorem blacklist_ttl_counterexample :
    ((logout cfgOn w0 3600 (some sampleRefreshTok)
        (some (.bearer sampleAccessTok))).2.redis.getEntry
          (.blacklist sampleAccessTok)).map REntry.ttl = some 86400 ∧
    remainingValidity sampleAccessTok 3600 = some 82800 ∧
    (86400 : Nat) ≠ 82800 :=
  ⟨rfl, rfl, by decide⟩

/-- C4 (corrected): when the Session Store is enabled and an Authorization
header accompanies a logout or change-password request, the raw access token
is inserted into the blacklist with a TTL equal to the configured constant
blacklistTtl (parseInt of JWT_EXPIRES_IN, defaulting to 24 hours in
seconds), a fixed duration independent of the token's embedded expiry and
remaining validity. -/
theorem revocation_blacklist_fixed_ttl (cfg : Config) (w : World) (now : Nat)
    (p : JwtPayload) (h : AuthHeaderVal)
    (hred : cfg.redisEnabled = true)
    (htyp : p.typ = some .refresh) (hexp : now < p.exp)
    (uid : Nat) (u : StoredUser) (cur newPw : String)
    (hcv : changePasswordValidationMsgs cur newPw = [])
    (hu : findUserById w uid = some u)
    (hcur : bcryptComparePw cur u.passwordHash = true)
    (hdiff : bcryptComparePw newPw u.passwordHash = false) :
    ((logout cfg w now (some (.signed p)) (some h)).2.redis.getEntry
        (.blacklist (headerSubstring7 h))) =
      some { key := .blacklist (headerSubstring7 h), val := .revoked,
             ttl := blacklistTtl cfg } ∧
    ((changePassword cfg w now uid (some h) cur newPw).2.redis.getEntry
        (.blacklist (headerSubstring7 h))) =
      some { key := .blacklist (headerSubstring7 h), val := .revoked,
             ttl := blacklistTtl cfg } := by
  have hle : ¬ p.exp ≤ now := Nat.not_le.mpr hexp
  constructor
  · simp [logout, jwtVerify, hle, htyp, hred, redis_getEntry_setEx_self]
  · simp [changePassword, hcv, hu, hcur, hdiff, hred, redis_getEntry_setEx_self]

theorem revocation_blacklist_fixed_ttl_witness :
    ((logout cfgOn w0 3600 (some sampleRefreshTok)
        (some (.bearer sampleAccessTok))).2.redis.getEntry
          (.blacklist sampleAccessTok)) =
      some { key := .blacklist sampleAccessTok, val := .revoked, ttl := blacklistTtl cfgOn } ∧
    ((changePassword cfgOn w0 3600 1 (some (.bearer sampleAccessTok))
        "Aa1!aaaa" "Bb2!bbbb").2.redis.getEntry (.blacklist sampleAccessTok)) =
      some { key := .blacklist sampleAccessTok, val := .revoked, ttl := blacklistTtl cfgOn } :=
  revocation_blacklist_fixed_ttl cfgOn w0 3600 _ (.bearer sampleAccessTok)
    rfl (by decide) (by decide) 1 alice "Aa1!aaaa" "Bb2!bbbb"
    (by decide) (by decide) (by decide) (by decide)

/-- C3: a successful refresh with a valid refresh token of an existing
active user returns a freshly issued access+refresh pair; with the Session
Store enabled the stored refresh-token hash for that user is overwritten
with the hash of the new refresh token, and a subsequent refresh attempt
with the old, still-unexpired token fails the stored-hash comparison (the
rotation must happen at a second distinct from the old token's issue time,
otherwise jwt.sign reproduces the identical token). -/
theorem refresh_rotates_and_invalidates (cfg : Config) (w : World) (now now2 : Nat)
    (p : JwtPayload) (u : StoredUser)
    (hred : cfg.redisEnabled = true)
    (htyp : p.typ = some .refresh)
    (hexp : now < p.exp)
    (hstored : w.redis.get (.refreshTok p.sub) = some (.bhash (.signed p)))
    (hu : findUserById w p.sub = some u)
    (hact : u.isActive = true)
    (hiat : p.iat ≠ now) :
    (refresh cfg w now (some (.signed p))).1 =
      .ok { tokens := { accessToken := generateAuthToken u cfg now,
                        refreshToken := generateRefreshToken u cfg now } } ∧
    (refresh cfg w now (some (.signed p))).2.redis.get (.refreshTok p.sub) =
      some (.bhash (generateRefreshToken u cfg now)) ∧
    (now2 < p.exp →
      (refresh cfg (refresh cfg w now (some (.signed p))).2 now2 (some (.signed p))).1 =
        .error (.internal "Invalid refresh token")) := by
  have hle : ¬ p.exp ≤ now := Nat.not_le.mpr hexp
  have hu' : w.users.find? (fun v => v.id == p.sub) = some u := hu
  have hid : u.id = p.sub := by
    have hfind := List.find?_some hu'
    simpa using hfind
  have hmain : refresh cfg w now (some (.signed p)) =
      (.ok { tokens := { accessToken := generateAuthToken u cfg now,
                         refreshToken := generateRefreshToken u cfg now } },
       { w with redis := w.redis.setEx (.refreshTok u.id) (refreshStoreTtl cfg)
                  (.bhash (generateRefreshToken u cfg now)) }) := by
    simp [refresh, jwtVerify, hle, htyp, hred, hstored, hu, hact, bcryptCompareTok]
  have hneq : Jwt.signed p ≠ generateRefreshToken u cfg now := by
    unfold generateRefreshToken
    intro hh
    injection hh with h1
    exact hiat (congrArg JwtPayload.iat h1)
  have hcmp : bcryptCompareTok (.signed p) (.bhash (generateRefreshToken u cfg now)) = false := by
    unfold bcryptCompareTok
    rw [beq_eq_false_iff_ne]
    intro hh
    exact hneq (RVal.bhash.inj hh).symm
  refine ⟨?_, ?_, ?_⟩
  · rw [hmain]
  · rw [hmain]
    have hget := redis_get_setEx_self w.redis (.refreshTok p.sub) (refreshStoreTtl cfg)
      (.bhash (generateRefreshToken u cfg now))
    simpa [hid] using hget
  · intro h2
    have hle2 : ¬ p.exp ≤ now2 := Nat.not_le.mpr h2
    rw [hmain]
    simp [refresh, jwtVerify, hle2, htyp, hred, hid, redis_get_setEx_self, hcmp]

def wRot : World :=
  { users := [alice], approvals := [],
    redis := [{ key := .refreshTok 1, val := .bhash sampleRefreshTok, ttl := 604800 }],
    nextId := 2, outbox := [] }

theorem refresh_rotates_and_invalidates_witness :
    (refresh cfgOn wRot 100 (some sampleRefreshTok)).1 =
      .ok { tokens := { accessToken := generateAuthToken alice cfgOn 100,
                        refreshToken := generateRefreshToken alice cfgOn 100 } } ∧
    (refresh cfgOn wRot 100 (some sampleRefreshTok)).2.redis.get (.refreshTok 1) =
      some (.bhash (generateRefreshToken alice cfgOn 100)) ∧
    (refresh cfgOn (refresh cfgOn wRot 100 (some sampleRefreshTok)).2 200
        (some sampleRefreshTok)).1 = .error (.internal "Invalid refresh token") :=
  have h := refresh_rotates_and_invalidates cfgOn wRot 100 200
    { sub := 1, typ := some .refresh, email := none, role := none,
      permissions := none, iat := 0, exp := 604800 } alice
    rfl rfl (by decide) (by decide) (by decide) (by decide) (by decide)
  ⟨h.1, h.2.1, h.2.2 (by decide)⟩

/-- C9: with the Session Store enabled there is a single refresh-token slot
per user id: every successful register, login, and refresh leaves the slot
for the affected user holding exactly the bcrypt hash of the refresh token
it just issued, and exactly one raw token — the newest — passes the
stored-hash comparison against that slot, so each successful register,
login, or refresh invalidates every earlier refresh token of that user. -/
theorem session_store_single_refresh_slot (cfg : Config) (hred : cfg.redisEnabled = true) :
    (∀ w now r resp w1, register cfg w now r = (.ok resp, w1) →
      w1.redis.get (.refreshTok resp.userId) = some (.bhash resp.tokens.refreshToken)) ∧
    (∀ w now r resp w1, login cfg w now r = (.ok resp, w1) →
      w1.redis.get (.refreshTok resp.userId) = some (.bhash resp.tokens.refreshToken)) ∧
    (∀ w now p resp w1, refresh cfg w now (some (.signed p)) = (.ok resp, w1) →
      w1.redis.get (.refreshTok p.sub) = some (.bhash resp.tokens.refreshToken)) ∧
    (∀ t tok : Jwt, bcryptCompareTok t (.bhash tok) = true ↔ t = tok) := by
  refine ⟨?_, ?_, ?_, bcryptCompareTok_iff⟩
  · intro w now r resp w1 hok
    simp only [register] at hok
    split at hok
    · simp at hok
    · split at hok
      · simp at hok
      · split at hok
        · simp at hok
        · simp only [Prod.mk.injEq, Except.ok.injEq] at hok
          obtain ⟨h1, h2⟩ := hok
          subst h1
          subst h2
          simp [hred, redis_get_setEx_self]
  · intro w now r resp w1 hok
    simp only [login] at hok
    split at hok
    · simp at hok
    · split at hok
      · simp at hok
      · split at hok
        · simp at hok
        · split at hok
          · simp at hok
          · simp only [Prod.mk.injEq, Except.ok.injEq] at hok
            obtain ⟨h1, h2⟩ := hok
            subst h1
            subst h2
            simp [hred, redis_get_setEx_self]
  · intro w now p resp w1 hok
    by_cases hle : p.exp ≤ now
    · simp [refresh, jwtVerify, hle] at hok
    · by_cases hty : p.typ = some TokenType.refresh
      · cases hget : w.redis.get (.refreshTok p.sub) with
        | none => simp [refresh, jwtVerify, hle, hty, hred, hget] at hok
        | some v =>
          by_cases hcmp : bcryptCompareTok (.signed p) v = true
          · cases hu : findUserById w p.sub with
            | none => simp [refresh, jwtVerify, hle, hty, hred, hget, hcmp, hu] at hok
            | some u =>
              by_cases hact : u.isActive
              · have hid : u.id = p.sub := by
                  have hu' : w.users.find? (fun v2 => v2.id == p.sub) = some u := hu
                  simpa using List.find?_some hu'
                simp [refresh, jwtVerify, hle, hty, hred, hget, hcmp, hu, hact] at hok
                obtain ⟨h1, h2⟩ := hok
                subst h1
                subst h2
                simp [hred, hid, redis_get_setEx_self]
              · simp [refresh, jwtVerify, hle, hty, hred, hget, hcmp, hu, hact] at hok
          · simp [refresh, jwtVerify, hle, hty, hred, hget, hcmp] at hok
      · simp [refresh, jwtVerify, hle, hty] at hok

theorem session_store_single_refresh_slot_witness :
    (register cfgOn w0 9 regReqMentor).2.redis.get (.refreshTok 3) =
      some (.bhash (.signed { sub := 3, typ := some .refresh, email := none, role := none,
                              permissions := none, iat := 9, exp := 604809 })) :=
  (session_store_single_refresh_slot cfgOn rfl).1 w0 9 regReqMentor _ _ rfl

end NB
